import Mathlib

/-!
# Verification of `src/Native/CompositorCapture/CompositorCapture.cpp`

A shallow embedding of the compositor-capture session implemented in
`CompositorCapture.h` / `CompositorCapture.cpp`, together with theorems about
its timing engine, lifecycle operations, and fallback producer loop.

Modelling conventions:
* The sandbox build has no `components/viz/...` header, so
  `TRACTUS_HAS_VIZ_CAPTURER` is `0` and the `#else` (fallback) branches of
  `Start`/`Stop` are the compiled code; those are the branches embedded here.
* `int32_t` / `int64_t` fields are modelled as `Int`, `uint64_t` tokens and
  `size_t` sizes as `Nat`; no claim under study exercises wraparound.
* Pointers are modelled by their observable content: the pixel-buffer pointer
  by its nullity, the callback pointer by a `Bool` recording whether it is
  non-null, the browser-host pointer by an explicit `HostState` value threaded
  through the C-API calls so that (non-)mutation of the host is visible.
* The worker thread's loop is modelled as a function of the number of times
  the `running_` flag is observed `true` before the stop signal is seen, with
  the two clock reads supplied as an external function of the iteration index.
* The `double` arithmetic in `CalculateFrameInterval` is modelled bit-exactly:
  `fl` rounds a rational to 53 significant bits, nearest-even — IEEE binary64
  rounding with unbounded exponent range, which coincides with binary64 on
  this code path because for int32-range inputs every intermediate value lies
  in the normal finite range.  The int32-to-double conversions are exact
  (`|int32| < 2^53`), the division and the multiplication by the exactly
  representable `1'000'000.0` are single correctly rounded operations, and
  `static_cast<int64_t>` truncates toward zero (`ratTrunc`).
-/

namespace CompositorCapture

/-- `enum class CompositorFrameStorageType : uint32_t` from `CompositorCapture.h`. -/
inductive CompositorFrameStorageType where
  | kSystemMemory
  | kSharedTextureHandle
  | kSharedMemoryHandle
deriving DecidableEq, Repr

/-- `struct CompositorCaptureConfig` from `CompositorCapture.h`
(`int32_t width, height, frame_rate_numerator, frame_rate_denominator`). -/
structure CompositorCaptureConfig where
  width : Int
  height : Int
  frame_rate_numerator : Int
  frame_rate_denominator : Int
deriving DecidableEq, Repr

/-- `struct CompositorCapturedFrame` from `CompositorCapture.h`.  The two
pointer fields are modelled by their nullity (`pixel_buffer` either points at
the session's staging buffer or is null; `shared_handle` is always null in the
fallback loop). -/
structure CompositorCapturedFrame where
  frame_token : Nat
  pixel_buffer_is_null : Bool
  shared_handle_is_null : Bool
  width : Int
  height : Int
  stride : Int
  monotonic_timestamp : Int
  timestamp_utc_microseconds : Int
  storage_type : CompositorFrameStorageType
deriving DecidableEq, Repr

/-- The browser-host collaborator (`CefBrowserHost`), reduced to the one piece
of state the spec talks about: whether the host's automatic frame-production
cadence is enabled. -/
structure HostState where
  auto_frame_production : Bool
deriving DecidableEq, Repr

/-- The mutable state of `CompositorCaptureSessionImpl`: the configuration
snapshot, whether `callback_` is non-null, the `started_` flag, the atomic
`running_` flag, whether `capture_thread_` is joinable, the size of
`staging_buffer_`, and `next_frame_token_`. -/
structure SessionState where
  config : CompositorCaptureConfig
  has_callback : Bool
  started : Bool
  running : Bool
  thread_joinable : Bool
  staging_buffer_size : Nat
  next_frame_token : Nat
deriving DecidableEq, Repr

/-- The constructor `CompositorCaptureSessionImpl::CompositorCaptureSessionImpl`:
stores the configuration and callback and default-initialises the remaining
members (`started_{false}`, `running_{false}`, empty `staging_buffer_`,
`next_frame_token_{0}`, no thread).  The `browser_host` parameter is unnamed
in the source and never used.  The `capturer_` member (a stub
`viz::FrameSinkVideoCapturer` in the fallback build, with empty `Start`/`Stop`)
carries no state and is not modelled. -/
def mkSession (config : CompositorCaptureConfig) (has_callback : Bool) : SessionState :=
  { config := config
  , has_callback := has_callback
  , started := false
  , running := false
  , thread_joinable := false
  , staging_buffer_size := 0
  , next_frame_token := 0 }

/-- `CompositorCaptureSessionImpl::CalculateBufferSize`:
`0` when `width <= 0 || height <= 0`, else `width * height * 4` (computed in
`size_t`). -/
def CalculateBufferSize (config : CompositorCaptureConfig) : Nat :=
  if config.width ≤ 0 ∨ config.height ≤ 0 then 0
  else config.width.toNat * config.height.toNat * 4

/-- `CompositorCaptureSessionImpl::CalculateStride`:
`0` when `width <= 0`, else `width * 4`. -/
def CalculateStride (config : CompositorCaptureConfig) : Int :=
  if config.width ≤ 0 then 0
  else config.width * 4

/-- Round a rational to the nearest integer with ties to even — the rounding
applied to an exactly scaled significand by IEEE-754 round-to-nearest-even. -/
def roundTiesEven (q : ℚ) : ℤ :=
  if q - ⌊q⌋ < 1/2 then ⌊q⌋
  else if 1/2 < q - ⌊q⌋ then ⌊q⌋ + 1
  else if Even ⌊q⌋ then ⌊q⌋ else ⌊q⌋ + 1

/-- IEEE binary64 rounding of a positive rational: scale into
`[2^52, 2^53)`, round the significand to nearest-even, scale back.  The
exponent is unbounded, which agrees with binary64 whenever the value lies in
the normal finite range — true of every intermediate in
`CalculateFrameInterval` for int32-range inputs.  Non-positive arguments
(unreachable on the guarded code path) map to `0`. -/
def fl (x : ℚ) : ℚ :=
  if x ≤ 0 then 0
  else
    let e : ℤ := Int.log 2 x - 52
    (roundTiesEven (x / 2 ^ e) : ℚ) * 2 ^ e

/-- `static_cast<int64_t>` applied to a `double`: truncation toward zero. -/
def ratTrunc (q : ℚ) : ℤ := if q < 0 then -⌊-q⌋ else ⌊q⌋

/-- `CompositorCaptureSessionImpl::CalculateFrameInterval`: `16667` µs when
either rate component is `<= 0`; otherwise the `double` evaluation
`static_cast<int64_t>((double)denominator / (double)numerator * 1'000'000.0)`
— the int32-to-double conversions are exact, the division and the
multiplication each round once to binary64 (`fl`), and the cast truncates
toward zero — with a final fallback to `16667` when the truncated value is
`<= 0`. -/
def CalculateFrameInterval (config : CompositorCaptureConfig) : Int :=
  if config.frame_rate_numerator ≤ 0 ∨ config.frame_rate_denominator ≤ 0 then 16667
  else
    let period_seconds : ℚ :=
      fl ((config.frame_rate_denominator : ℚ) / (config.frame_rate_numerator : ℚ))
    let microseconds : Int := ratTrunc (fl (period_seconds * 1000000))
    if microseconds ≤ 0 then 16667 else microseconds

/-- The value the specification's claim ascribes to the timing engine on
positive inputs: `round(denominator/numerator * 1_000_000)`, rounding to the
nearest integer.  Written from the spec's words, to be compared against
`CalculateFrameInterval` (which the source computes by truncation). -/
def specRoundedInterval (config : CompositorCaptureConfig) : Int :=
  round ((config.frame_rate_denominator * 1000000 : ℚ) / config.frame_rate_numerator)

/-- Result of an operation that may start a worker thread: the session state
afterwards, and whether this call spawned a new `capture_thread_`. -/
structure StartResult where
  state : SessionState
  spawned_thread : Bool
deriving DecidableEq, Repr

/-- Result of an operation that may join the worker thread: the session state
afterwards, and whether this call signalled the loop and joined the thread. -/
structure StopResult where
  state : SessionState
  joined_thread : Bool
deriving DecidableEq, Repr

/-- `CompositorCaptureSessionImpl::StartFallbackLoop`: returns immediately when
`callback_` is null; otherwise attempts the atomic
`running_.compare_exchange_strong(false, true)` and returns when it fails
(already running).  Only the call whose compare-and-set succeeds allocates the
staging buffer (`staging_buffer_.assign(CalculateBufferSize(), 0)`) and spawns
the `capture_thread_` running `RunFallbackLoop`. -/
def StartFallbackLoop (s : SessionState) : StartResult :=
  if !s.has_callback then ⟨s, false⟩
  else if s.running then ⟨s, false⟩
  else
    ⟨{ s with running := true
            , staging_buffer_size := CalculateBufferSize s.config
            , thread_joinable := true }
    , true⟩

/-- `CompositorCaptureSessionImpl::StopFallbackLoop`: the atomic
`running_.exchange(false)` returns immediately when the flag was already
`false`; otherwise it joins `capture_thread_` if joinable. -/
def StopFallbackLoop (s : SessionState) : StopResult :=
  if !s.running then ⟨s, false⟩
  else
    ⟨{ s with running := false, thread_joinable := false }
    , s.thread_joinable⟩

/-- `CompositorCaptureSessionImpl::Start` in the fallback build
(`TRACTUS_HAS_VIZ_CAPTURER == 0`): runs `StartFallbackLoop()` and then
unconditionally sets `started_ = true`. -/
def Start (s : SessionState) : StartResult :=
  let r := StartFallbackLoop s
  ⟨{ r.state with started := true }, r.spawned_thread⟩

/-- `CompositorCaptureSessionImpl::Stop` in the fallback build:
runs `StopFallbackLoop()` and then unconditionally sets `started_ = false`. -/
def Stop (s : SessionState) : StopResult :=
  let r := StopFallbackLoop s
  ⟨{ r.state with started := false }, r.joined_thread⟩

/-- One frame descriptor as built inside `RunFallbackLoop` at a state `s`:
`frame_token = ++next_frame_token_`, `pixel_buffer` null exactly when the
staging buffer is empty, `shared_handle = nullptr`, dimensions and stride from
the configuration, the two timestamps from the iteration's clock reads, and
`storage_type = kSystemMemory`. -/
def mkLoopFrame (s : SessionState) (stride : Int) (clocks : Int × Int) :
    CompositorCapturedFrame :=
  { frame_token := s.next_frame_token + 1
  , pixel_buffer_is_null := s.staging_buffer_size == 0
  , shared_handle_is_null := true
  , width := s.config.width
  , height := s.config.height
  , stride := stride
  , monotonic_timestamp := clocks.1
  , timestamp_utc_microseconds := clocks.2
  , storage_type := .kSystemMemory }

/-- `CompositorCaptureSessionImpl::RunFallbackLoop`, parameterised by the
number of iterations whose `running_.load()` observed `true` before the stop
signal was seen (`obs`), and by the per-iteration clock reads
(`clock i = (steady_clock, system_clock)` for the `i`-th iteration).  Returns
the session state when the loop exits together with the list of frames
delivered to the sink, in delivery order.  When the defensive null-callback
check fires, the loop stores `false` into `running_` and breaks without
invoking the sink. -/
def RunFallbackLoop (clock : Nat → Int × Int) :
    SessionState → Nat → SessionState × List CompositorCapturedFrame
  | s, 0 => (s, [])
  | s, obs + 1 =>
    let stride := CalculateStride s.config
    let frame := mkLoopFrame s stride (clock s.next_frame_token)
    if s.has_callback then
      let s2 := { s with next_frame_token := s.next_frame_token + 1 }
      let rest := RunFallbackLoop clock s2 obs
      (rest.1, frame :: rest.2)
    else
      ({ s with running := false }, [])

/-- `cc_create_session`: returns `nullptr` when the host, configuration, or
callback pointer is null; otherwise constructs a fresh
`CompositorCaptureSessionImpl` (allocating no thread and an empty staging
buffer) wrapped in a `CompositorCaptureSession`.  The host pointer is passed
to the constructor, whose parameter is unnamed and unused, so the host state
is returned unchanged. -/
def cc_create_session (host : Option HostState)
    (config : Option CompositorCaptureConfig) (callback_nonnull : Bool) :
    Option SessionState × Option HostState :=
  if host = none ∨ config = none ∨ callback_nonnull = false then (none, host)
  else
    match config with
    | none => (none, host)
    | some cfg => (some (mkSession cfg callback_nonnull), host)

/-- `cc_destroy_session`: `delete session` runs
`~CompositorCaptureSession`, which deletes the impl; the impl's destructor
runs `StopFallbackLoop()`.  No code on this path references the browser host,
so the host state is returned unchanged.  The result carries the impl state
at the moment of deallocation (`none` when the handle was null). -/
def cc_destroy_session (host : HostState) (session : Option SessionState) :
    Option SessionState × HostState :=
  match session with
  | none => (none, host)
  | some s => (some (StopFallbackLoop s).state, host)

/-- One observable event of the worker thread executing `RunFallbackLoop`
with a registered sink: an atomic read of `running_` with the value observed,
or an invocation of the sink with the frame token it delivers. -/
inductive LoopEvent where
  | flagRead (value : Bool)
  | sinkInvoke (token : Nat)
deriving DecidableEq, Repr

/-- Whether a loop event is a sink invocation. -/
def LoopEvent.isSinkInvoke : LoopEvent → Bool
  | .sinkInvoke _ => true
  | _ => false

/-- The token delivered by a sink-invocation event, if any. -/
def LoopEvent.sinkToken : LoopEvent → Option Nat
  | .sinkInvoke t => some t
  | _ => none

/-- The event trace of `RunFallbackLoop` with a registered sink: `obs`
iterations whose `running_.load()` observes `true`, each followed by the sink
invocation of that iteration's frame, and then the final load that observes
`false` and exits the `while` loop.  `tok` is `next_frame_token_` at entry. -/
def loopTrace : Nat → Nat → List LoopEvent
  | 0, _ => [.flagRead false]
  | obs + 1, tok => .flagRead true :: .sinkInvoke (tok + 1) :: loopTrace obs (tok + 1)

/-- The configuration used by the spec's main worked scenario
(`{width:1920, height:1080, frameRateNumerator:30, frameRateDenominator:1}`). -/
def sampleConfig : CompositorCaptureConfig := ⟨1920, 1080, 30, 1⟩

/-- A concrete clock for evaluating the loop: both clocks read zero. -/
def zeroClock : Nat → Int × Int := fun _ => (0, 0)

/-- Rounding to nearest (ties to even) moves a rational by at most `1/2`. -/
theorem roundTiesEven_err (q : ℚ) : |(roundTiesEven q : ℚ) - q| ≤ 1/2 := by
  have h0 : (⌊q⌋ : ℚ) ≤ q := Int.floor_le q
  have h1 : q < ⌊q⌋ + 1 := Int.lt_floor_add_one q
  unfold roundTiesEven
  split_ifs with ha hb hc <;> push_cast <;> rw [abs_le] <;> constructor <;> linarith

/-- Relative error of one binary64 rounding: at most half an ulp, i.e.
`x / 2^53` for positive `x`. -/
theorem fl_err (x : ℚ) (hx : 0 < x) : |fl x - x| ≤ x / 2 ^ (53 : ℤ) := by
  unfold fl
  rw [if_neg (not_le.mpr hx)]
  have hb : (1 : ℕ) < 2 := one_lt_two
  have hlow : ((2 : ℕ) : ℚ) ^ Int.log 2 x ≤ x := Int.zpow_log_le_self hb hx
  set L : ℤ := Int.log 2 x with hL
  have h2 : ((2 : ℕ) : ℚ) = (2 : ℚ) := by norm_num
  rw [h2] at hlow
  have hepos : (0 : ℚ) < (2 : ℚ) ^ (L - 52) := zpow_pos (by norm_num) _
  have hkey := roundTiesEven_err (x / 2 ^ (L - 52))
  have hsplit : (roundTiesEven (x / 2 ^ (L - 52)) : ℚ) * 2 ^ (L - 52) - x =
      ((roundTiesEven (x / 2 ^ (L - 52)) : ℚ) - x / 2 ^ (L - 52)) * 2 ^ (L - 52) := by
    field_simp
  rw [hsplit, abs_mul, abs_of_pos hepos]
  have hstep := mul_le_mul_of_nonneg_right hkey hepos.le
  refine hstep.trans ?_
  have hx53 : (2 : ℚ) ^ (L - 52) * 2 ^ (52 : ℤ) ≤ x := by
    rw [← zpow_add₀ (two_ne_zero)]
    simpa using hlow
  have hpos53 : (0 : ℚ) < (2 : ℚ) ^ (53 : ℤ) := zpow_pos (by norm_num) _
  rw [le_div_iff₀ hpos53]
  have harith : (1/2 : ℚ) * 2 ^ (L - 52) * 2 ^ (53 : ℤ) = 2 ^ (L - 52) * 2 ^ (52 : ℤ) := by
    rw [show (53 : ℤ) = 52 + 1 by norm_num, zpow_add₀ (two_ne_zero), zpow_one]
    ring
  rw [harith]
  exact hx53

/-- Binary64 rounding preserves positivity. -/
theorem fl_pos (x : ℚ) (hx : 0 < x) : 0 < fl x := by
  have h := fl_err x hx
  rw [abs_le] at h
  have h53 : (0 : ℚ) < 2 ^ (53 : ℤ) := zpow_pos (by norm_num) _
  have hlt : x / 2 ^ (53 : ℤ) < x := by
    rw [div_lt_iff₀ h53]
    nlinarith
  linarith [h.1]

/-- `2^53` as a rational numeral. -/
theorem two_zpow_53 : (2 : ℚ) ^ (53 : ℤ) = 9007199254740992 := by norm_num

/-- The two-rounding evaluation `fl(fl(den/num) * 10^6)` performed by the
source stays strictly within one microsecond of the exact value
`den * 10^6 / num`, for int32-range positive inputs, and is positive. -/
theorem doubleEval_err (den num : ℤ) (hn : 0 < num) (hd : 0 < den)
    (hd31 : den < 2 ^ 31) :
    0 < fl (fl ((den : ℚ) / num) * 1000000) ∧
    |fl (fl ((den : ℚ) / num) * 1000000) - (den * 1000000 : ℚ) / num| < 1 := by
  have hnq : (0 : ℚ) < num := by exact_mod_cast hn
  have hdq : (0 : ℚ) < den := by exact_mod_cast hd
  have hq : (0 : ℚ) < (den : ℚ) / num := div_pos hdq hnq
  have h1 := fl_err ((den : ℚ) / num) hq
  have hy1pos : 0 < fl ((den : ℚ) / num) := fl_pos _ hq
  have hy1e6 : (0 : ℚ) < fl ((den : ℚ) / num) * 1000000 := by positivity
  have h2 := fl_err (fl ((den : ℚ) / num) * 1000000) hy1e6
  refine ⟨fl_pos _ hy1e6, ?_⟩
  rw [two_zpow_53] at h1 h2
  rw [abs_le] at h1 h2
  have hv : (den * 1000000 : ℚ) / num = ((den : ℚ) / num) * 1000000 := by ring
  rw [hv]
  have hqle : (den : ℚ) / num ≤ (den : ℚ) := by
    apply div_le_self hdq.le
    exact_mod_cast hn
  have hden : (den : ℚ) < 2 ^ 31 := by exact_mod_cast hd31
  rw [abs_lt]
  constructor <;> nlinarith [h1.1, h1.2, h2.1, h2.2, hq, hqle, hden]

/-- If two rationals are strictly within `1` of each other, their floors are
within `1` of each other. -/
theorem floor_close (y v : ℚ) (h : |y - v| < 1) : ⌊v⌋ - 1 ≤ ⌊y⌋ ∧ ⌊y⌋ ≤ ⌊v⌋ + 1 := by
  rw [abs_lt] at h
  constructor
  · have hle : v - 1 ≤ y := by linarith
    have := Int.floor_mono hle
    rw [show v - 1 = v + (-1 : ℤ) by push_cast; ring, Int.floor_add_int] at this
    omega
  · have hle : y ≤ v + 1 := by linarith
    have := Int.floor_mono hle
    rw [show v + 1 = v + (1 : ℤ) by push_cast; ring, Int.floor_add_int] at this
    omega

/-- Evaluation rule for `roundTiesEven` when the fraction is below one half. -/
theorem roundTiesEven_of_lt_half (q : ℚ) (n : ℤ) (h1 : (n : ℚ) ≤ q)
    (h2 : q < (n : ℚ) + 1/2) : roundTiesEven q = n := by
  have hf : ⌊q⌋ = n := Int.floor_eq_iff.mpr ⟨h1, by linarith⟩
  unfold roundTiesEven
  rw [hf, if_pos (show q - (n : ℚ) < 1/2 by linarith)]

/-- Evaluation rule for `roundTiesEven` when the fraction is above one half. -/
theorem roundTiesEven_of_half_lt (q : ℚ) (n : ℤ) (h1 : (n : ℚ) + 1/2 < q)
    (h2 : q < (n : ℚ) + 1) : roundTiesEven q = n + 1 := by
  have hf : ⌊q⌋ = n := Int.floor_eq_iff.mpr ⟨by linarith, by linarith⟩
  unfold roundTiesEven
  rw [hf, if_neg (show ¬(q - (n : ℚ) < 1/2) by linarith),
    if_pos (show (1:ℚ)/2 < q - (n : ℚ) by linarith)]

/-- Evaluation rule for `fl` given a bracketing power of two. -/
theorem fl_eq_of_bounds (x : ℚ) (L : ℤ) (hx : 0 < x)
    (h1 : (2 : ℚ) ^ L ≤ x) (h2 : x < (2 : ℚ) ^ (L + 1)) :
    fl x = (roundTiesEven (x / 2 ^ (L - 52)) : ℚ) * 2 ^ (L - 52) := by
  have hb : (1 : ℕ) < 2 := one_lt_two
  have hcast : ((2 : ℕ) : ℚ) = (2 : ℚ) := by norm_num
  have hlog : Int.log 2 x = L := by
    have hle : L ≤ Int.log 2 x := by
      rw [← Int.zpow_le_iff_le_log hb hx, hcast]
      exact h1
    have hlt : Int.log 2 x < L + 1 := by
      rw [← Int.lt_zpow_iff_log_lt hb hx, hcast]
      exact h2
    omega
  unfold fl
  rw [if_neg (not_le.mpr hx), hlog]

/-- The binary64 value of `2/3` (the period for numerator 3, denominator 2):
`0x1.5555555555555p-1`, slightly below `2/3`. -/
theorem fl_two_thirds : fl ((2 : ℚ) / 3) = 6004799503160661 / 9007199254740992 := by
  rw [fl_eq_of_bounds ((2:ℚ)/3) (-1) (by norm_num) (by norm_num) (by norm_num),
    roundTiesEven_of_lt_half _ 6004799503160661 (by norm_num) (by norm_num)]
  norm_num

/-- The binary64 product of the stored `2/3` with `1'000'000.0`: just below
`666666.6repeating`. -/
theorem fl_two_thirds_scaled :
    fl ((6004799503160661 / 9007199254740992 : ℚ) * 1000000) =
      5726623061333333 / 8589934592 := by
  rw [fl_eq_of_bounds _ 19 (by norm_num) (by norm_num) (by norm_num),
    roundTiesEven_of_lt_half _ 5726623061333333 (by norm_num) (by norm_num)]
  norm_num

/-- The binary64 value of `1/30` (the period for numerator 30, denominator
1), slightly above `1/30`. -/
theorem fl_one_thirtieth :
    fl ((1 : ℚ) / 30) = 4803839602528529 / 144115188075855872 := by
  rw [fl_eq_of_bounds ((1:ℚ)/30) (-5) (by norm_num) (by norm_num) (by norm_num),
    roundTiesEven_of_lt_half _ 4803839602528529 (by norm_num) (by norm_num)]
  norm_num

/-- The binary64 product of the stored `1/30` with `1'000'000.0`: just above
`33333.3repeating`. -/
theorem fl_one_thirtieth_scaled :
    fl ((4803839602528529 / 144115188075855872 : ℚ) * 1000000) =
      4581298449066667 / 137438953472 := by
  rw [fl_eq_of_bounds _ 15 (by norm_num) (by norm_num) (by norm_num),
    roundTiesEven_of_half_lt _ 4581298449066666 (by norm_num) (by norm_num)]
  norm_num

/-- Unfolding `RunFallbackLoop` when the sink is registered: the loop runs all
`obs` iterations, only `next_frame_token_` changes in the session state, and
the `i`-th delivered frame is the descriptor built at token counter
`next_frame_token_ + i`. -/
theorem runFallbackLoop_eq (clock : Nat → Int × Int) (s : SessionState)
    (h : s.has_callback = true) (obs : Nat) :
    RunFallbackLoop clock s obs =
      ({ s with next_frame_token := s.next_frame_token + obs },
       (List.range obs).map (fun i =>
         mkLoopFrame { s with next_frame_token := s.next_frame_token + i }
           (CalculateStride s.config) (clock (s.next_frame_token + i)))) := by
  induction obs generalizing s with
  | zero => simp [RunFallbackLoop]
  | succ n ih =>
    have hrun :=
      ih { s with has_callback := true, next_frame_token := s.next_frame_token + 1 } rfl
    simp only [RunFallbackLoop, h, if_true, hrun, List.range_succ_eq_map,
      List.map_cons, List.map_map, Prod.mk.injEq]
    refine ⟨by congr 1; omega, ?_⟩
    refine congrArg₂ List.cons (by simp [mkLoopFrame]) ?_
    refine List.map_congr_left fun i _ => ?_
    have e : s.next_frame_token + 1 + i = s.next_frame_token + (i + 1) := by omega
    simp only [Function.comp_apply, Nat.succ_eq_add_one]
    rw [e]

/-- The event trace agrees with `RunFallbackLoop`: the tokens carried by the
trace's sink invocations are exactly the frame tokens the loop delivers, in
order. -/
theorem loopTrace_models_run (clock : Nat → Int × Int) (s : SessionState)
    (h : s.has_callback = true) (obs : Nat) :
    (loopTrace obs s.next_frame_token).filterMap LoopEvent.sinkToken =
      (RunFallbackLoop clock s obs).2.map CompositorCapturedFrame.frame_token := by
  induction obs generalizing s with
  | zero => simp [RunFallbackLoop, loopTrace, LoopEvent.sinkToken]
  | succ n ih =>
    have h2 : ({ s with next_frame_token := s.next_frame_token + 1 } :
        SessionState).has_callback = true := h
    rw [RunFallbackLoop, if_pos (by simp [h]), loopTrace]
    simpa [LoopEvent.sinkToken, mkLoopFrame] using ih _ h2

/-- The binary64 value of `41/5`: `0x1.0666666666666p+3`, slightly below
`8.2`. -/
theorem fl_fortyone_fifths :
    fl ((41 : ℚ) / 5) = 2308094809027379 / 281474976710656 := by
  rw [fl_eq_of_bounds ((41:ℚ)/5) 3 (by norm_num) (by norm_num) (by norm_num),
    roundTiesEven_of_lt_half _ 4616189618054758 (by norm_num) (by norm_num)]
  norm_num

/-- The binary64 product of the stored `41/5` with `1'000'000.0`: just below
`8200000`. -/
theorem fl_fortyone_fifths_scaled :
    fl ((2308094809027379 / 281474976710656 : ℚ) * 1000000) =
      8804682956799999 / 1073741824 := by
  rw [fl_eq_of_bounds _ 22 (by norm_num) (by norm_num) (by norm_num),
    roundTiesEven_of_lt_half _ 8804682956799999 (by norm_num) (by norm_num)]
  norm_num

/-- At numerator `5`, denominator `41`, the `double` evaluation lands a hair
below the exactly representable `8200000` and the cast truncates to
`8199999`, one below the exact floor `⌊41/5 * 10^6⌋ = 8200000` — the
binary64 model diverges here from exact-rational truncation, as the source
does. -/
theorem calculateFrameInterval_ieee_truncation :
    CalculateFrameInterval ⟨1920, 1080, 5, 41⟩ = 8199999 ∧
    ⌊((41 : ℚ) * 1000000) / 5⌋ = 8200000 := by
  constructor
  · unfold CalculateFrameInterval
    rw [if_neg (by norm_num)]
    simp only [Int.cast_ofNat]
    rw [fl_fortyone_fifths, fl_fortyone_fifths_scaled]
    have htr : ratTrunc (8804682956799999 / 1073741824 : ℚ) = 8199999 := by
      unfold ratTrunc
      rw [if_neg (by norm_num), Int.floor_eq_iff]
      norm_num
    rw [htr]
    norm_num
  · rw [Int.floor_eq_iff]
    norm_num

/-- C1 counterexample: at `frame_rate_numerator = 3`, `frame_rate_denominator
= 2` (a positive configuration), `CalculateFrameInterval` returns `666666`
(the binary64 evaluation of `(2.0/3.0) * 1'000'000.0` is just below
`666666.6repeating` and the cast truncates it), while the claimed value
`round(denominator/numerator * 1_000_000)` is `666667`, so the claim as
stated is false at this input. -/
theorem calculateFrameInterval_round_counterexample :
    CalculateFrameInterval ⟨1920, 1080, 3, 2⟩ = 666666 ∧
    specRoundedInterval ⟨1920, 1080, 3, 2⟩ = 666667 ∧
    CalculateFrameInterval ⟨1920, 1080, 3, 2⟩ ≠ specRoundedInterval ⟨1920, 1080, 3, 2⟩ := by
  have hval : CalculateFrameInterval ⟨1920, 1080, 3, 2⟩ = 666666 := by
    unfold CalculateFrameInterval
    rw [if_neg (by norm_num)]
    simp only [Int.cast_ofNat]
    rw [fl_two_thirds, fl_two_thirds_scaled]
    have htr : ratTrunc (5726623061333333 / 8589934592 : ℚ) = 666666 := by
      unfold ratTrunc
      rw [if_neg (by norm_num), Int.floor_eq_iff]
      norm_num
    rw [htr]
    norm_num
  have h2 : specRoundedInterval ⟨1920, 1080, 3, 2⟩ = 666667 := by
    unfold specRoundedInterval
    rw [round_eq, Int.floor_eq_iff]
    norm_num
  exact ⟨hval, h2, by rw [hval, h2]; decide⟩

/-- C1 (amended): for every configuration with a non-positive rate component
the timing engine returns exactly `16667`; for positive components in the
int32 range the returned interval is determined by the IEEE binary64
evaluation of `(denominator/numerator) * 1_000_000` truncated toward zero —
it therefore lies within one microsecond of
`⌊denominator/numerator * 1_000_000⌋` (truncation of the exact value, not
round-to-nearest), except that a truncated result `≤ 0` (possible only when
that exact floor is at most `1`) falls back to `16667`. -/
theorem calculateFrameInterval_spec (cfg : CompositorCaptureConfig) :
    (cfg.frame_rate_numerator ≤ 0 ∨ cfg.frame_rate_denominator ≤ 0 →
      CalculateFrameInterval cfg = 16667) ∧
    (0 < cfg.frame_rate_numerator → 0 < cfg.frame_rate_denominator →
      cfg.frame_rate_denominator < 2 ^ 31 →
      (CalculateFrameInterval cfg = 16667 ∧
        ⌊(cfg.frame_rate_denominator * 1000000 : ℚ) /
          (cfg.frame_rate_numerator : ℚ)⌋ ≤ 1) ∨
      |CalculateFrameInterval cfg -
        ⌊(cfg.frame_rate_denominator * 1000000 : ℚ) /
          (cfg.frame_rate_numerator : ℚ)⌋| ≤ 1) := by
  refine ⟨fun h => by simp only [CalculateFrameInterval, if_pos h], fun h1 h2 h3 => ?_⟩
  obtain ⟨hy2pos, herr⟩ :=
    doubleEval_err cfg.frame_rate_denominator cfg.frame_rate_numerator h1 h2 h3
  have htr : ratTrunc (fl (fl ((cfg.frame_rate_denominator : ℚ) /
      (cfg.frame_rate_numerator : ℚ)) * 1000000)) =
      ⌊fl (fl ((cfg.frame_rate_denominator : ℚ) /
        (cfg.frame_rate_numerator : ℚ)) * 1000000)⌋ := by
    unfold ratTrunc
    rw [if_neg (not_lt.mpr hy2pos.le)]
  obtain ⟨hf1, hf2⟩ := floor_close _ _ herr
  unfold CalculateFrameInterval
  rw [if_neg (by omega)]
  simp only [htr]
  split_ifs with hms
  · exact Or.inl ⟨rfl, by omega⟩
  · exact Or.inr (by rw [abs_le]; constructor <;> omega)

/-- Witness for the amended C1 at the spec's scenario configuration `30/1`:
the hypotheses hold, and the binary64 evaluation of `(1.0/30.0) * 1'000'000.0`
truncates to exactly `33333` µs (the floor of the exact value). -/
theorem calculateFrameInterval_spec_witness :
    ((CalculateFrameInterval ⟨1920, 1080, 30, 1⟩ = 16667 ∧
      ⌊((⟨1920, 1080, 30, 1⟩ : CompositorCaptureConfig).frame_rate_denominator * 1000000 : ℚ) /
        ((⟨1920, 1080, 30, 1⟩ : CompositorCaptureConfig).frame_rate_numerator : ℚ)⌋ ≤ 1) ∨
     |CalculateFrameInterval ⟨1920, 1080, 30, 1⟩ -
      ⌊((⟨1920, 1080, 30, 1⟩ : CompositorCaptureConfig).frame_rate_denominator * 1000000 : ℚ) /
        ((⟨1920, 1080, 30, 1⟩ : CompositorCaptureConfig).frame_rate_numerator : ℚ)⌋| ≤ 1) ∧
    CalculateFrameInterval ⟨1920, 1080, 30, 1⟩ = 33333 := by
  refine ⟨(calculateFrameInterval_spec ⟨1920, 1080, 30, 1⟩).2 (by decide) (by decide)
    (by decide), ?_⟩
  unfold CalculateFrameInterval
  rw [if_neg (by norm_num)]
  simp only [Int.cast_ofNat, Int.cast_one]
  rw [fl_one_thirtieth, fl_one_thirtieth_scaled]
  have htr : ratTrunc (4581298449066667 / 137438953472 : ℚ) = 33333 := by
    unfold ratTrunc
    rw [if_neg (by norm_num), Int.floor_eq_iff]
    norm_num
  rw [htr]
  norm_num

/-- The staging-buffer size, cast to `Int`: `width * height * 4` when both
dimensions are positive, else `0`. -/
theorem calculateBufferSize_cast (cfg : CompositorCaptureConfig) :
    (CalculateBufferSize cfg : Int) =
      if 0 < cfg.width ∧ 0 < cfg.height then cfg.width * cfg.height * 4 else 0 := by
  unfold CalculateBufferSize
  split_ifs with h1 h2
  · omega
  · rfl
  · push_cast
    rw [Int.toNat_of_nonneg (by omega), Int.toNat_of_nonneg (by omega)]
  · omega

/-- The state of a freshly created session right after a successful
`Start()`: running, with the staging buffer allocated at the computed size
and the token counter still at zero. -/
theorem start_fresh_state (cfg : CompositorCaptureConfig) :
    (Start (mkSession cfg true)).state =
      { config := cfg, has_callback := true, started := true, running := true,
        thread_joinable := true, staging_buffer_size := CalculateBufferSize cfg,
        next_frame_token := 0 } := rfl

/-- Tokens delivered by a run of the fallback loop from any state with a
registered sink: consecutive values starting one past the entry counter, and
the run advances only the token counter. -/
theorem runFallbackLoop_tokens (clock : Nat → Int × Int) (s : SessionState)
    (h : s.has_callback = true) (obs : Nat) :
    (RunFallbackLoop clock s obs).2.map CompositorCapturedFrame.frame_token =
      (List.range obs).map (fun i => s.next_frame_token + i + 1) ∧
    (RunFallbackLoop clock s obs).1 =
      { s with next_frame_token := s.next_frame_token + obs } := by
  rw [runFallbackLoop_eq clock s h obs]
  exact ⟨by simp [mkLoopFrame], rfl⟩

/-- A `Stop()` followed by a `Start()` on a session with a registered sink
re-arms the loop and reallocates the staging buffer but leaves the token
counter (and the configuration) untouched. -/
theorem start_after_stop (s : SessionState) (h : s.has_callback = true) :
    (Start (Stop s).state).state =
      { s with started := true, running := true, thread_joinable := true,
               staging_buffer_size := CalculateBufferSize s.config } := by
  rcases s with ⟨cfg', cb, st, run, thr, buf, tok⟩
  cases run <;> simp_all [Stop, StopFallbackLoop, Start, StartFallbackLoop]

/-- C2 counterexample: creating a session against a host whose automatic
frame production is enabled succeeds, yet the host is left with automatic
frame production still enabled (no disable operation happened); likewise
destroying a session while the host's cadence is disabled leaves it disabled
(no enable operation happened).  The constructor's host parameter is unnamed
and unused. -/
theorem host_cadence_counterexample :
    (cc_create_session (some ⟨true⟩) (some sampleConfig) true).1 ≠ none ∧
    (cc_create_session (some ⟨true⟩) (some sampleConfig) true).2 = some ⟨true⟩ ∧
    (cc_destroy_session ⟨false⟩
      (cc_create_session (some ⟨true⟩) (some sampleConfig) true).1).2 = ⟨false⟩ := by
  decide

/-- C2 (amended): neither session creation nor session destruction touches
the browser host: `cc_create_session` returns the host state exactly as
supplied, and `cc_destroy_session` (which only runs `StopFallbackLoop` and
frees the session) leaves the host state unchanged, so no automatic-frame
-production cadence is disabled on create nor re-enabled on destroy. -/
theorem host_cadence_preserved (host : HostState)
    (config : Option CompositorCaptureConfig) (cb : Bool) (s : Option SessionState) :
    (cc_create_session (some host) config cb).2 = some host ∧
    (cc_destroy_session host s).2 = host := by
  constructor
  · rcases config with _ | c <;> rcases cb <;> simp [cc_create_session]
  · rcases s with _ | st <;> rfl

/-- C3 counterexample: calling `Start()` on a session whose sink callback is
null is not a state no-op: the `started_` flag flips from `false` to `true`
(line 67 of the source runs unconditionally). -/
theorem start_null_sink_counterexample :
    (Start (mkSession sampleConfig false)).state ≠ mkSession sampleConfig false ∧
    (Start (mkSession sampleConfig false)).state.started = true ∧
    (mkSession sampleConfig false).started = false := by
  decide

/-- C3 (amended): for every session whose sink callback is null, `Start()`
spawns no worker thread and leaves the running flag, staging buffer, token
counter and thread state unchanged, but it does unconditionally set the
`started_` flag to `true`. -/
theorem start_null_sink (s : SessionState) (h : s.has_callback = false) :
    Start s = ⟨{ s with started := true }, false⟩ := by
  simp [Start, StartFallbackLoop, h]

/-- Witness for the amended C3: starting a freshly constructed sink-less
session only sets `started_`. -/
theorem start_null_sink_witness :
    Start (mkSession sampleConfig false) =
      ⟨{ mkSession sampleConfig false with started := true }, false⟩ :=
  start_null_sink (mkSession sampleConfig false) rfl

/-- C5: `cc_create_session` returns a null handle exactly when the host
pointer, the configuration pointer, or the sink callback is null; in that
case it returns immediately with no session object constructed (and hence no
thread and no staging buffer); on success it allocates exactly one freshly
constructed session (which itself owns no thread and an empty buffer). -/
theorem create_session_contract (host : Option HostState)
    (config : Option CompositorCaptureConfig) (cb : Bool) :
    ((cc_create_session host config cb).1 = none ↔
      host = none ∨ config = none ∨ cb = false) ∧
    ((host = none ∨ config = none ∨ cb = false) →
      cc_create_session host config cb = (none, host)) ∧
    (∀ h c, cc_create_session (some h) (some c) true =
      (some (mkSession c true), some h)) := by
  refine ⟨?_, ?_, fun h c => by simp [cc_create_session]⟩
  · rcases host with _ | h <;> rcases config with _ | c <;> rcases cb <;>
      simp [cc_create_session]
  · rcases host with _ | h <;> rcases config with _ | c <;> rcases cb <;>
      simp [cc_create_session]

/-- Witness for C5: a null host pointer yields a null session and an
otherwise untouched result. -/
theorem create_session_contract_witness :
    cc_create_session none (some sampleConfig) true = (none, none) :=
  (create_session_contract none (some sampleConfig) true).2.1 (Or.inl rfl)

/-- C6: calling `Start()` a second time without an intervening `Stop()`
spawns no second worker thread and changes nothing in the session state, and
`StartFallbackLoop` spawns the thread (and allocates the staging buffer)
exactly on the call whose compare-and-set flips `running_` from `false` to
`true`, i.e. exactly when a sink is registered and the flag is not yet set. -/
theorem start_twice (s : SessionState) :
    (Start (Start s).state).state = (Start s).state ∧
    (Start (Start s).state).spawned_thread = false ∧
    ((StartFallbackLoop s).spawned_thread = true ↔
      s.has_callback = true ∧ s.running = false) := by
  rcases s with ⟨cfg, cb, st, run, thr, buf, tok⟩
  cases cb <;> cases run <;> simp [Start, StartFallbackLoop]

/-- C7: `Stop()` is idempotent: after one `Stop()` the running flag is
`false`, so a second `Stop()` in a row changes nothing and joins nothing
(the `running_.exchange(false)` returns `false` and the call returns at
once). -/
theorem stop_twice (s : SessionState) :
    (Stop (Stop s).state).state = (Stop s).state ∧
    (Stop (Stop s).state).joined_thread = false := by
  rcases s with ⟨cfg, cb, st, run, thr, buf, tok⟩
  cases run <;> simp [Stop, StopFallbackLoop]

/-- C4: in a run of the fallback loop from a freshly created and started
session, the sequence of frame tokens delivered to the sink is exactly
`1, 2, ..., obs` — strictly increasing, gap-free, starting at `1`. -/
theorem fresh_run_tokens (cfg : CompositorCaptureConfig)
    (clock : Nat → Int × Int) (obs : Nat) :
    (RunFallbackLoop clock (Start (mkSession cfg true)).state obs).2.map
        CompositorCapturedFrame.frame_token =
      (List.range obs).map (fun i => i + 1) := by
  rw [start_fresh_state, runFallbackLoop_eq _ _ rfl obs]
  simp [mkLoopFrame]

/-- C8: every frame delivered by the fallback loop of a freshly started
session has `stride = width * 4` when `width > 0` and `0` otherwise; the
session's staging buffer holds `width * height * 4` bytes when both
dimensions are positive and `0` otherwise; the frame's pixel buffer is null
exactly when that size is zero; and the storage kind is `kSystemMemory`. -/
theorem delivered_frame_shape (cfg : CompositorCaptureConfig)
    (clock : Nat → Int × Int) (obs : Nat) (f : CompositorCapturedFrame)
    (hf : f ∈ (RunFallbackLoop clock (Start (mkSession cfg true)).state obs).2) :
    f.stride = (if 0 < cfg.width then cfg.width * 4 else 0) ∧
    ((Start (mkSession cfg true)).state.staging_buffer_size : Int) =
      (if 0 < cfg.width ∧ 0 < cfg.height then cfg.width * cfg.height * 4 else 0) ∧
    (f.pixel_buffer_is_null = true ↔
      (Start (mkSession cfg true)).state.staging_buffer_size = 0) ∧
    f.storage_type = CompositorFrameStorageType.kSystemMemory := by
  rw [start_fresh_state] at hf ⊢
  rw [runFallbackLoop_eq _ _ rfl obs] at hf
  obtain ⟨i, hi, rfl⟩ := List.mem_map.mp hf
  refine ⟨?_, calculateBufferSize_cast cfg, ?_, rfl⟩
  · show CalculateStride cfg = _
    unfold CalculateStride
    split_ifs <;> omega
  · show (CalculateBufferSize cfg == 0) = true ↔ CalculateBufferSize cfg = 0
    simp

/-- Witness for C8 at the spec's scenario configuration `1920×1080` with one
delivered frame: stride `7680`, buffer `1920*1080*4`, non-null pixel buffer,
system-memory storage. -/
theorem delivered_frame_shape_witness :
    (⟨1, false, true, 1920, 1080, 7680, 0, 0, .kSystemMemory⟩ :
        CompositorCapturedFrame).stride =
      (if 0 < sampleConfig.width then sampleConfig.width * 4 else 0) ∧
    ((Start (mkSession sampleConfig true)).state.staging_buffer_size : Int) =
      (if 0 < sampleConfig.width ∧ 0 < sampleConfig.height then
        sampleConfig.width * sampleConfig.height * 4 else 0) ∧
    ((⟨1, false, true, 1920, 1080, 7680, 0, 0, .kSystemMemory⟩ :
        CompositorCapturedFrame).pixel_buffer_is_null = true ↔
      (Start (mkSession sampleConfig true)).state.staging_buffer_size = 0) ∧
    (⟨1, false, true, 1920, 1080, 7680, 0, 0, .kSystemMemory⟩ :
        CompositorCapturedFrame).storage_type =
      CompositorFrameStorageType.kSystemMemory :=
  delivered_frame_shape sampleConfig zeroClock 1
    ⟨1, false, true, 1920, 1080, 7680, 0, 0, .kSystemMemory⟩ (by decide)

/-- C10: the frame-token counter survives `Stop()` and a subsequent
`Start()`: after a run of `n` frames, a stop, and a restart, the second run
delivers tokens `n+1, n+2, ..., n+m` (its first frame carries the previous
run's last token plus one, not token `1`), and the tokens of the two runs
together form the gap-free sequence `1, ..., n+m`, so tokens stay unique
across runs within one session lifetime. -/
theorem token_counter_survives_restart (cfg : CompositorCaptureConfig)
    (clock1 clock2 : Nat → Int × Int) (n m : Nat) :
    ((RunFallbackLoop clock2
        (Start (Stop (RunFallbackLoop clock1
          (Start (mkSession cfg true)).state n).1).state).state m).2.map
        CompositorCapturedFrame.frame_token =
      (List.range m).map (fun i => n + i + 1)) ∧
    (((RunFallbackLoop clock1 (Start (mkSession cfg true)).state n).2 ++
      (RunFallbackLoop clock2
        (Start (Stop (RunFallbackLoop clock1
          (Start (mkSession cfg true)).state n).1).state).state m).2).map
        CompositorCapturedFrame.frame_token =
      (List.range (n + m)).map (fun i => i + 1)) := by
  have hcb1 : (Start (mkSession cfg true)).state.has_callback = true := by
    rw [start_fresh_state]
  have htok1 : (Start (mkSession cfg true)).state.next_frame_token = 0 := by
    rw [start_fresh_state]
  obtain ⟨hmap1, hst1⟩ := runFallbackLoop_tokens clock1 _ hcb1 n
  have hS2 := start_after_stop
    (RunFallbackLoop clock1 (Start (mkSession cfg true)).state n).1
    (by rw [hst1]; exact hcb1)
  obtain ⟨hmap2, hst2⟩ := runFallbackLoop_tokens clock2
    (Start (Stop (RunFallbackLoop clock1
      (Start (mkSession cfg true)).state n).1).state).state
    (by rw [hS2, hst1]; exact hcb1) m
  have hnext2 : (Start (Stop (RunFallbackLoop clock1
      (Start (mkSession cfg true)).state n).1).state).state.next_frame_token = n := by
    rw [hS2, hst1]
    simp [htok1]
  constructor
  · simp only [hmap2, hnext2]
  · simp only [List.map_append, hmap1, hmap2, hnext2, htok1, List.range_add,
      List.map_map, Nat.zero_add]
    refine congrArg₂ _ ?_ ?_ <;> refine List.map_congr_left fun i _ => ?_ <;>
      simp [Function.comp]

/-- C9: in every execution of the fallback loop, (a) once a load of
`running_` observes `false` the loop exits immediately — nothing at all, in
particular no sink invocation, follows that observation in the trace — and
(b) from any point of the trace after which every load of `running_`
observes `false` (i.e. any point at which `Stop` has already cleared the
flag), at most one sink invocation occurs. -/
theorem stop_signal_bounds (obs tok : Nat) :
    (∀ s : List LoopEvent,
      (LoopEvent.flagRead false :: s) <:+ loopTrace obs tok → s = []) ∧
    (∀ s : List LoopEvent, s <:+ loopTrace obs tok →
      (∀ e ∈ s, e ≠ LoopEvent.flagRead true) →
      s.countP LoopEvent.isSinkInvoke ≤ 1) := by
  induction obs generalizing tok with
  | zero =>
    constructor
    · intro s hs
      simp only [loopTrace] at hs
      rcases List.suffix_cons_iff.mp hs with heq | hs2
      · simpa using heq
      · have := List.suffix_nil.mp hs2
        simp at this
    · intro s hs _
      rcases List.suffix_cons_iff.mp hs with heq | hs2
      · subst heq
        simp [List.countP_cons, LoopEvent.isSinkInvoke]
      · rw [List.suffix_nil.mp hs2]
        simp
  | succ n ih =>
    constructor
    · intro s hs
      rcases List.suffix_cons_iff.mp hs with heq | hs2
      · simp at heq
      · rcases List.suffix_cons_iff.mp hs2 with heq2 | hs3
        · simp at heq2
        · exact (ih (tok + 1)).1 s hs3
    · intro s hs h
      rcases List.suffix_cons_iff.mp hs with heq | hs2
      · subst heq
        exact absurd rfl (h (LoopEvent.flagRead true) (List.mem_cons_self _ _))
      · rcases List.suffix_cons_iff.mp hs2 with heq2 | hs3
        · subst heq2
          cases n with
          | zero => simp [loopTrace, List.countP_cons, LoopEvent.isSinkInvoke]
          | succ k =>
            exact absurd rfl (h (LoopEvent.flagRead true)
              (by simp [loopTrace]))
        · exact (ih (tok + 1)).2 s hs3 h

/-- Witness for C9 on the one-iteration trace
`[flagRead true, sinkInvoke 1, flagRead false]`: nothing follows the `false`
observation, and the suffix starting right after `Stop`'s request (just
before the already-begun iteration's sink call) contains exactly one sink
invocation. -/
theorem stop_signal_bounds_witness :
    ([] : List LoopEvent) = [] ∧
    ([LoopEvent.sinkInvoke 1, LoopEvent.flagRead false] : List LoopEvent).countP
      LoopEvent.isSinkInvoke ≤ 1 :=
  ⟨(stop_signal_bounds 1 0).1 []
      ⟨[LoopEvent.flagRead true, LoopEvent.sinkInvoke 1], rfl⟩,
   (stop_signal_bounds 1 0).2 [LoopEvent.sinkInvoke 1, LoopEvent.flagRead false]
      ⟨[LoopEvent.flagRead true], rfl⟩ (by decide)⟩

end CompositorCapture
